import Mathlib

/-!
Shallow embedding of `src/genta_api/api.py` (class `GentaAPI`), a minimal
HTTP client for a hosted inference API.

Modelling conventions: Python dictionaries that travel in the JSON request
body become Lean structures; Python `Optional[T]` becomes `Option T`; the
Python float literals among the defaults become exact rationals, which is
faithful because the client performs no arithmetic on them and only copies
them into the request body; Python exceptions become `Except PyError`; the
HTTP transport (`requests.post` followed by `response.json()` and
`response.status_code`) becomes an explicit function argument from the URL
and the request body to a response body and a status code, and each
operation additionally returns the list of requests it actually handed to
the transport, so that claims about the absence of network I/O are statable.
-/

/-- A chat message: a Python dict with keys `role` and `text`
(api.py docstring, lines 18-22). -/
structure ChatMessage where
  role : String
  text : String
deriving Repr, DecidableEq

/-- The Python exceptions the client can raise before any network I/O. -/
inductive PyError where
  | typeError (msg : String)
  | valueError (msg : String)
deriving Repr, DecidableEq

/-- Evaluating `xs[key]` in Python, where `xs` is a list and `key` a string,
raises `TypeError` unconditionally; this is what `chat_history['role']` at
api.py line 106 evaluates to, since `chat_history` is the list itself and not
the iterated element.  The result type is `String` because the surrounding
code would compare the (never produced) value with role strings. -/
def listStrIndex (_xs : List ChatMessage) (_key : String) : Except PyError String :=
  Except.error (PyError.typeError "list indices must be integers or slices, not str")

/-- The 16 optional generation keyword parameters shared by `ChatCompletion`
(api.py lines 56-71) and `TextCompletion` (lines 143-158), gathered in a
record.  `watermark` is annotated `Optional[str]` in the source but its
default value is the boolean `False`; it is modelled with the type of its
values. -/
structure Parameters where
  best_of : Option Int
  decoder_input_details : Option Bool
  details : Option Bool
  do_sample : Option Bool
  max_new_tokens : Option Int
  repetition_penalty : Option Rat
  return_full_text : Option Bool
  seed : Option Int
  stop : Option (List String)
  temperature : Option Rat
  top_k : Option Int
  top_n_tokens : Option Int
  top_p : Option Rat
  truncate : Option Int
  typical_p : Option Rat
  watermark : Option Bool
deriving Repr, DecidableEq

/-- The default values of the 16 generation keyword parameters
(api.py lines 56-71 and, identically, 143-158). -/
def defaultParameters : Parameters where
  best_of := some 1
  decoder_input_details := some true
  details := some true
  do_sample := some true
  max_new_tokens := some 128
  repetition_penalty := some (1.03 : Rat)
  return_full_text := some false
  seed := none
  stop := some []
  temperature := some (0.7 : Rat)
  top_k := some 50
  top_n_tokens := none
  top_p := some (0.95 : Rat)
  truncate := none
  typical_p := some (0.95 : Rat)
  watermark := some false

/-- The `inputs` field of a request body: a chat-message array for the chat
endpoint, a raw string for the text endpoint. -/
inductive Inputs where
  | chat (history : List ChatMessage)
  | text (s : String)
deriving Repr, DecidableEq

/-- The JSON request body assembled by both operations: token, inputs,
model name and the parameters sub-object (api.py lines 109-131 and
189-211). -/
structure RequestBody where
  token : String
  inputs : Inputs
  model_name : String
  parameters : Parameters
deriving Repr, DecidableEq

/-- The client: its only attribute is the token, assigned once in
`__init__` (api.py lines 49-50) and never reassigned by any method. -/
structure GentaAPI where
  token : String
deriving Repr, DecidableEq

namespace GentaAPI

/-- api.py line 46. -/
def CHAT_URL : String := "https://api.genta.tech/chat/"

/-- api.py line 47. -/
def TEXT_URL : String := "https://api.genta.tech/text/"

/-- The role-validation loop of `ChatCompletion` (api.py lines 105-107):
`for i in chat_history:` runs the body once per element of the history; the
body evaluates `chat_history['role']` — the list itself indexed with a
string, not the iterated element `i` — and would raise `ValueError` with the
documented message if the resulting value were not an allowed role.  The
first argument is the captured `chat_history`; the second is the remaining
iteration. -/
def roleValidationLoop (chat_history : List ChatMessage) :
    List ChatMessage → Except PyError Unit
  | [] => Except.ok ()
  | _ :: rest =>
      match listStrIndex chat_history "role" with
      | Except.error e => Except.error e
      | Except.ok r =>
          if (["user", "assistant", "system"].contains r) = false then
            Except.error (PyError.valueError
              "chat_history must be list of dict with role key: user, assistant, system")
          else roleValidationLoop chat_history rest

/-- Runs the validation loop of api.py lines 105-107 over the whole
history. -/
def validateChatHistory (chat_history : List ChatMessage) : Except PyError Unit :=
  roleValidationLoop chat_history chat_history

/-- The `parameters` sub-object of the chat request body (api.py lines
113-130): each key bound to the homonymous argument. -/
def chatParametersObject (best_of : Option Int) (decoder_input_details : Option Bool)
    (details : Option Bool) (do_sample : Option Bool) (max_new_tokens : Option Int)
    (repetition_penalty : Option Rat) (return_full_text : Option Bool)
    (seed : Option Int) (stop : Option (List String)) (temperature : Option Rat)
    (top_k : Option Int) (top_n_tokens : Option Int) (top_p : Option Rat)
    (truncate : Option Int) (typical_p : Option Rat) (watermark : Option Bool) :
    Parameters where
  best_of := best_of
  decoder_input_details := decoder_input_details
  details := details
  do_sample := do_sample
  max_new_tokens := max_new_tokens
  repetition_penalty := repetition_penalty
  return_full_text := return_full_text
  seed := seed
  stop := stop
  temperature := temperature
  top_k := top_k
  top_n_tokens := top_n_tokens
  top_p := top_p
  truncate := truncate
  typical_p := typical_p
  watermark := watermark

/-- The `parameters` sub-object of the text request body (api.py lines
193-210): each key bound to the homonymous argument. -/
def textParametersObject (best_of : Option Int) (decoder_input_details : Option Bool)
    (details : Option Bool) (do_sample : Option Bool) (max_new_tokens : Option Int)
    (repetition_penalty : Option Rat) (return_full_text : Option Bool)
    (seed : Option Int) (stop : Option (List String)) (temperature : Option Rat)
    (top_k : Option Int) (top_n_tokens : Option Int) (top_p : Option Rat)
    (truncate : Option Int) (typical_p : Option Rat) (watermark : Option Bool) :
    Parameters where
  best_of := best_of
  decoder_input_details := decoder_input_details
  details := details
  do_sample := do_sample
  max_new_tokens := max_new_tokens
  repetition_penalty := repetition_penalty
  return_full_text := return_full_text
  seed := seed
  stop := stop
  temperature := temperature
  top_k := top_k
  top_n_tokens := top_n_tokens
  top_p := top_p
  truncate := truncate
  typical_p := typical_p
  watermark := watermark

/-- The `data` dict of `ChatCompletion` (api.py lines 109-131).  The record
`p` stands for the 16 generation keyword arguments of the Python
signature. -/
def chatRequestBody (token : String) (chat_history : List ChatMessage)
    (model_name : String) (p : Parameters) : RequestBody where
  token := token
  inputs := Inputs.chat chat_history
  model_name := model_name
  parameters := chatParametersObject p.best_of p.decoder_input_details p.details
    p.do_sample p.max_new_tokens p.repetition_penalty p.return_full_text p.seed
    p.stop p.temperature p.top_k p.top_n_tokens p.top_p p.truncate p.typical_p
    p.watermark

/-- The `data` dict of `TextCompletion` (api.py lines 189-211). -/
def textRequestBody (token : String) (text : String)
    (model_name : String) (p : Parameters) : RequestBody where
  token := token
  inputs := Inputs.text text
  model_name := model_name
  parameters := textParametersObject p.best_of p.decoder_input_details p.details
    p.do_sample p.max_new_tokens p.repetition_penalty p.return_full_text p.seed
    p.stop p.temperature p.top_k p.top_n_tokens p.top_p p.truncate p.typical_p
    p.watermark

/-- `GentaAPI.ChatCompletion` (api.py lines 52-137): run the validation loop,
build `data`, POST it to `CHAT_URL`, and return the deserialized response
body together with the status code.  `transport` stands for `requests.post`
composed with `response.json()` and `response.status_code`; the second
component of the result is the log of requests handed to the transport (a
call that raises before network I/O logs none). -/
def ChatCompletion {β : Type} (api : GentaAPI)
    (transport : String → RequestBody → β × Nat)
    (chat_history : List ChatMessage) (model_name : String) (p : Parameters) :
    Except PyError (β × Nat) × List (String × RequestBody) :=
  match validateChatHistory chat_history with
  | Except.error e => (Except.error e, [])
  | Except.ok _ =>
      let data : RequestBody := chatRequestBody api.token chat_history model_name p
      let response : β × Nat := transport CHAT_URL data
      (Except.ok (response.1, response.2), [(CHAT_URL, data)])

/-- `GentaAPI.TextCompletion` (api.py lines 139-217): no validation of any
kind; build `data`, POST it to `TEXT_URL`, and return the deserialized
response body together with the status code. -/
def TextCompletion {β : Type} (api : GentaAPI)
    (transport : String → RequestBody → β × Nat)
    (text : String) (model_name : String) (p : Parameters) :
    Except PyError (β × Nat) × List (String × RequestBody) :=
  let data : RequestBody := textRequestBody api.token text model_name p
  let response : β × Nat := transport TEXT_URL data
  (Except.ok (response.1, response.2), [(TEXT_URL, data)])

end GentaAPI

/-- C9: for every non-empty chat history — in particular one whose every role
is valid — `ChatCompletion` evaluates `chat_history['role']`, a string index
applied to the list itself, and therefore raises `TypeError` before any
network call, sending nothing; only the empty chat history passes the loop
and reaches the transport. -/
theorem chatCompletion_nonempty_history_typeError {β : Type}
    (t : String → RequestBody → β × Nat) (tok : String) (m : ChatMessage)
    (ch : List ChatMessage) (mn : String) (p : Parameters) :
    GentaAPI.ChatCompletion ⟨tok⟩ t (m :: ch) mn p =
      (Except.error (PyError.typeError "list indices must be integers or slices, not str"),
        []) ∧
    GentaAPI.ChatCompletion ⟨tok⟩ t [] mn p =
      (Except.ok (t GentaAPI.CHAT_URL (GentaAPI.chatRequestBody tok [] mn p)),
        [(GentaAPI.CHAT_URL, GentaAPI.chatRequestBody tok [] mn p)]) := by
  exact ⟨rfl, rfl⟩

/-- C1: at a history whose single message has the invalid role "oracle",
`ChatCompletion` raises `TypeError` — not the `ValueError` the claim and the
method's own docstring announce — and sends no request. -/
theorem chatCompletion_invalid_role_raises_typeError :
    (GentaAPI.ChatCompletion ⟨"tok"⟩ (fun _ _ => ("resp", 200))
        [⟨"oracle", "hi"⟩] "Starstreak" defaultParameters).1 =
      Except.error (PyError.typeError "list indices must be integers or slices, not str") ∧
    (GentaAPI.ChatCompletion ⟨"tok"⟩ (fun _ _ => ("resp", 200))
        [⟨"oracle", "hi"⟩] "Starstreak" defaultParameters).2 = [] ∧
    (GentaAPI.ChatCompletion ⟨"tok"⟩ (fun _ _ => ("resp", 200))
        [⟨"oracle", "hi"⟩] "Starstreak" defaultParameters).1 ≠
      Except.error (PyError.valueError
        "chat_history must be list of dict with role key: user, assistant, system") := by
  refine ⟨rfl, rfl, fun h => ?_⟩
  exact PyError.noConfusion (Except.error.inj h)

/-- C2: at a history whose every role is valid, `ChatCompletion` still raises
`TypeError` before the request body is built; nothing reaches the
transport. -/
theorem chatCompletion_valid_roles_still_typeError :
    GentaAPI.ChatCompletion ⟨"tok"⟩ (fun _ _ => ("resp", 200))
        [⟨"user", "Hello"⟩, ⟨"assistant", "Hi"⟩] "Starstreak" defaultParameters =
      (Except.error (PyError.typeError "list indices must be integers or slices, not str"),
        []) := by
  exact rfl

/-- C3: both operations return exactly the deserialized body and the status
code the transport produced, whatever the status code is — including a
constant transport answering any body `b` with any status `s`, such as 500;
no status value is turned into a raised error by this layer. -/
theorem completions_return_transport_response_verbatim {β : Type}
    (t : String → RequestBody → β × Nat) (b : β) (s : Nat)
    (tok txt mn : String) (p : Parameters) :
    (GentaAPI.TextCompletion ⟨tok⟩ t txt mn p).1 =
      Except.ok (t GentaAPI.TEXT_URL (GentaAPI.textRequestBody tok txt mn p)) ∧
    (GentaAPI.ChatCompletion ⟨tok⟩ t [] mn p).1 =
      Except.ok (t GentaAPI.CHAT_URL (GentaAPI.chatRequestBody tok [] mn p)) ∧
    (GentaAPI.TextCompletion ⟨tok⟩ (fun _ _ => (b, s)) txt mn p).1 =
      Except.ok (b, s) ∧
    (GentaAPI.ChatCompletion ⟨tok⟩ (fun _ _ => (b, s)) [] mn p).1 =
      Except.ok (b, s) := by
  exact ⟨rfl, rfl, rfl, rfl⟩

/-- C4: with every generation parameter and the model name explicitly given
by the caller, the serialized body carries exactly those values: its
`model_name` field is the given model name and its `parameters` sub-object is
exactly the given bundle — for the text operation always (witnessed through
the request it hands to the transport), and for the chat operation whenever
its body-construction code runs. -/
theorem overridden_values_serialized_exactly {β : Type}
    (t : String → RequestBody → β × Nat) (tok txt mn : String)
    (ch : List ChatMessage) (p : Parameters) :
    (GentaAPI.textRequestBody tok txt mn p).model_name = mn ∧
    (GentaAPI.textRequestBody tok txt mn p).parameters = p ∧
    (GentaAPI.chatRequestBody tok ch mn p).model_name = mn ∧
    (GentaAPI.chatRequestBody tok ch mn p).parameters = p ∧
    (GentaAPI.TextCompletion ⟨tok⟩ t txt mn p).2 =
      [(GentaAPI.TEXT_URL, GentaAPI.textRequestBody tok txt mn p)] := by
  exact ⟨rfl, rfl, rfl, rfl, rfl⟩

/-- C5: `TextCompletion` called with text "Hello" and every parameter at its
default serializes `inputs` as the raw string "Hello"; in particular the
`inputs` field is not a chat-message array. -/
theorem textCompletion_hello_inputs_is_raw_string {β : Type}
    (t : String → RequestBody → β × Nat) :
    (GentaAPI.textRequestBody "tok" "Hello" "Starstreak" defaultParameters).inputs =
      Inputs.text "Hello" ∧
    (GentaAPI.TextCompletion ⟨"tok"⟩ t "Hello" "Starstreak" defaultParameters).2 =
      [(GentaAPI.TEXT_URL,
        GentaAPI.textRequestBody "tok" "Hello" "Starstreak" defaultParameters)] ∧
    ∀ l : List ChatMessage,
      (GentaAPI.textRequestBody "tok" "Hello" "Starstreak" defaultParameters).inputs ≠
        Inputs.chat l := by
  refine ⟨rfl, rfl, fun l h => ?_⟩
  exact Inputs.noConfusion h

/-- C6: `TextCompletion` performs no validation at all: for every text,
every parameter bundle and every transport, it raises no error and hands
exactly one request to the transport. -/
theorem textCompletion_never_raises {β : Type}
    (t : String → RequestBody → β × Nat) (tok txt mn : String) (p : Parameters) :
    (∀ e : PyError, (GentaAPI.TextCompletion ⟨tok⟩ t txt mn p).1 ≠ Except.error e) ∧
    (GentaAPI.TextCompletion ⟨tok⟩ t txt mn p).2.length = 1 := by
  exact ⟨fun e h => Except.noConfusion h, rfl⟩

/-- C7: the client's only attribute is the token fixed at construction, and
each call copies it unchanged into its body: two bodies built from the same
client and history that differ only in the model name agree on `token` (equal
to the construction token), `inputs` and `parameters`, and carry their
respective model names; the text body carries the same token too. -/
theorem sequential_calls_differ_only_in_model_name
    (tok mn1 mn2 txt : String) (ch : List ChatMessage) (p : Parameters) :
    (GentaAPI.chatRequestBody tok ch mn1 p).token =
        (GentaAPI.chatRequestBody tok ch mn2 p).token ∧
    (GentaAPI.chatRequestBody tok ch mn1 p).token = tok ∧
    (GentaAPI.chatRequestBody tok ch mn1 p).inputs =
        (GentaAPI.chatRequestBody tok ch mn2 p).inputs ∧
    (GentaAPI.chatRequestBody tok ch mn1 p).parameters =
        (GentaAPI.chatRequestBody tok ch mn2 p).parameters ∧
    (GentaAPI.chatRequestBody tok ch mn1 p).model_name = mn1 ∧
    (GentaAPI.chatRequestBody tok ch mn2 p).model_name = mn2 ∧
    (GentaAPI.textRequestBody tok txt mn1 p).token = tok := by
  exact ⟨rfl, rfl, rfl, rfl, rfl, rfl, rfl⟩

/-- C8: when `stop` is left at its default, both operations serialize the
empty list in every call: the default itself is the empty list and every body
built from the defaults carries `stop = []`, so no call's body can differ
from a later one's on this field. -/
theorem stop_defaults_to_empty_list_each_call
    (tok txt mn : String) (ch : List ChatMessage) :
    defaultParameters.stop = some [] ∧
    (GentaAPI.chatRequestBody tok ch mn defaultParameters).parameters.stop = some [] ∧
    (GentaAPI.textRequestBody tok txt mn defaultParameters).parameters.stop = some [] := by
  exact ⟨rfl, rfl, rfl⟩

/-- C10: the `parameters` sub-object built by `ChatCompletion` (api.py lines
113-130) and the one built by `TextCompletion` (lines 193-210) are the same
function of the 16 generation arguments. -/
theorem chat_text_parameter_serialization_equal :
    GentaAPI.chatParametersObject = GentaAPI.textParametersObject := by
  exact rfl
